import Mathlib

/-!
Verification of the DKoflerGIT/cnn repository: two Jupyter notebooks (an MNIST
convolutional network and an Iris classifier) that glue together calls into the
external `compyute` tensor/NN library.  Tensors are shallowly embedded as lists
of rational numbers; each notebook is additionally embedded as the list of its
top-level Python statements so that claims about script structure (linearity,
absence of exception handlers, absence of repository-owned data structures)
can be stated and decided.
-/

namespace Cnn

/-! ## Tensor scalar statistics, as used by the notebook `scale` helper.

The MNIST notebook (src/unnamed/part_000, lines 80-83) defines

    def scale(x: cp.Tensor) -> cp.Tensor:
        mean_px = x.mean().to_type(cp.float32)
        std_px = x.std().to_type(cp.float32)
        return (x - mean_px)/(std_px)

A tensor is embedded by the flat list of all its elements in ℚ (each concrete
machine-float datum is a rational); `mean` is the mean over all elements and
`std` the population standard deviation (square root of the mean squared
deviation, zero delta degrees of freedom, as in NumPy-style libraries).  The
square root is kept abstract as a scalar function `rt`, assumed only to send
exactly 0 to 0 on nonnegative arguments when a claim needs that; the cast
`to_type(cp.float32)` is likewise kept abstract as a scalar function `f32`,
applied exactly where the source applies it. -/

/-- Mean of all elements of a tensor, embedded as a flat list. -/
def tmean (x : List ℚ) : ℚ := x.sum / x.length


/-- Mean squared deviation from the mean (population variance). -/
def tvar (x : List ℚ) : ℚ :=
  ((x.map fun v => (v - tmean x) ^ 2).sum) / x.length


/-- Population standard deviation: the square root (abstract scalar
function `rt`) of the population variance. -/
def tstd (rt : ℚ → ℚ) (x : List ℚ) : ℚ := rt (tvar x)


/-- Elementwise subtraction of a scalar from a tensor, a fresh tensor. -/
def tsubScalar (x : List ℚ) (c : ℚ) : List ℚ := x.map fun v => v - c


/-- Elementwise division of a tensor by a scalar, a fresh tensor. -/
def tdivScalar (x : List ℚ) (c : ℚ) : List ℚ := x.map fun v => v / c


/-- The notebook's `scale` helper (part_000 lines 80-83), embedded statement
by statement.  `rt` stands for the library's scalar square root inside `std`,
`f32` for the `to_type(cp.float32)` cast applied to the two scalars.  The
result is the pair (returned tensor, the argument tensor as it stands after
the call): every operation used by the source (`mean`, `std`, `to_type`, `-`,
`/`) returns a fresh tensor and leaves its operands untouched, so the
argument is threaded through unchanged. -/
def scale (rt f32 : ℚ → ℚ) (x : List ℚ) : List ℚ × List ℚ :=
  let mean_px := f32 (tmean x)
  let std_px := f32 (tstd rt x)
  (tdivScalar (tsubScalar x mean_px) std_px, x)


/-- The formula the specification ascribes to the scale helper: elementwise
(x - mean(x)) / std(x), with both scalars cast to float32. -/
def scaleSpec (rt f32 : ℚ → ℚ) (x : List ℚ) : List ℚ :=
  x.map fun v => (v - f32 (tmean x)) / f32 (tstd rt x)


/-! ## Statement-level embedding of the two notebooks.

Each notebook is a linear Python script; it is embedded as the list of its
top-level statements in execution order.  Each statement records its kind
(import, shell command, assignment of an expression to a name, subscript
assignment, attribute assignment, function definition, class definition, bare
expression statement, for loop, try/except block) and, when it belongs to one
of the five pipeline steps named by the specification, its step number:
1 = fetch a dataset, 2 = reshape/normalize it, 3 = declare the layer
sequence, 4 = hand the model and data to the trainer, 5 = plot metrics and
pixel arrays.  Function definitions and statements outside the pipeline
(summary printing, evaluation, the checkpoint save/load demonstration) carry
no step number. -/

/-- Kind of a top-level Python statement in a notebook. -/
inductive StKind where
  | shellCmd
  | importSt
  | assignSt (lhs : String)
  | itemAssign (obj : String)
  | fieldAssign (obj fld : String)
  | defFun (fn : String)
  | classDef (cn : String)
  | exprSt
  | forSt
  | tryExcept
deriving DecidableEq


/-- A notebook statement: its kind and, when it belongs to one of the five
pipeline steps of the specification, the step number. -/
structure NStmt where
  kind : StKind
  phase : Option Nat
deriving DecidableEq


/-- A statement outside the five pipeline steps. -/
def stmt (k : StKind) : NStmt := ⟨k, none⟩


/-- A statement belonging to pipeline step `p`. -/
def stmtP (k : StKind) (p : Nat) : NStmt := ⟨k, some p⟩


/-- The MNIST notebook (src/unnamed/part_000), one entry per top-level
statement, in source order; source lines in the comments. -/
def mnistScript : List NStmt :=
  [ stmt .shellCmd,                                   -- 18: pip install
    stmt .importSt, stmt .importSt,                   -- 27-28: random, compyute
    stmt (.assignSt ("device")), stmt .exprSt,        -- 37-38
    stmt .importSt,                                   -- 55: pandas
    stmtP (.assignSt ("train_url")) 1,                -- 58
    stmtP (.assignSt ("train_data")) 1,               -- 59: pd.read_csv
    stmtP (.assignSt ("train_tensor")) 1,             -- 60: cp.tensor
    stmtP (.assignSt ("test_url")) 1,                 -- 62
    stmtP (.assignSt ("test_data")) 1,                -- 63: pd.read_csv
    stmtP (.assignSt ("test")) 1,                     -- 64: cp.tensor
    stmtP (.assignSt ("train, val, _")) 2,            -- 67: split_train_val_test
    stmtP (.assignSt ("X_train, y_train")) 2,         -- 70
    stmtP (.assignSt ("X_val, y_val")) 2,             -- 71
    stmtP (.assignSt ("X_test, y_test")) 2,           -- 72
    stmtP (.assignSt ("X_train")) 2,                  -- 75: cp.reshape
    stmtP (.assignSt ("X_val")) 2,                    -- 76: cp.reshape
    stmtP (.assignSt ("X_test")) 2,                   -- 77: cp.reshape
    stmt (.defFun ("scale")),                         -- 80-83
    stmtP (.assignSt ("X_train")) 2,                  -- 85: scale
    stmtP (.assignSt ("X_val")) 2,                    -- 86: scale
    stmtP (.assignSt ("X_test")) 2,                   -- 87: scale
    stmt .exprSt, stmt .exprSt, stmt .exprSt,         -- 89-91: prints
    stmt .exprSt, stmt .exprSt, stmt .exprSt,         -- 92-94: prints
    stmt .importSt,                                   -- 111: compyute.nn
    stmtP (.assignSt ("model")) 3,                    -- 113-127: nn.Sequential
    stmtP .exprSt 3,                                  -- 129: model.to_device
    stmt (.assignSt ("summary")), stmt .exprSt,       -- 138-139
    stmt .importSt, stmt .importSt, stmt .importSt,   -- 156-158
    stmtP (.assignSt ("optim")) 4,                    -- 160: Adam
    stmtP (.assignSt ("history")) 4,                  -- 161: History
    stmtP (.assignSt ("scheduler")) 4,                -- 162: AdaptiveLrScheduler
    stmtP (.assignSt ("trainer")) 4,                  -- 164-170: Trainer
    stmtP (.assignSt ("epochs")) 4,                   -- 179
    stmtP (.assignSt ("batch_size")) 4,               -- 180
    stmt (.fieldAssign ("model") ("retain_values")),  -- 182
    stmtP .exprSt 4,                                  -- 183: trainer.train
    stmt .importSt,                                   -- 208: matplotlib
    stmt (.defFun ("plot_history")),                  -- 210-215
    stmtP .exprSt 5,                                  -- 217: plot_history call
    stmt (.assignSt ("loss, accuracy")),              -- 234: evaluate_model
    stmt .exprSt, stmt .exprSt,                       -- 235-236: prints
    stmt .importSt, stmt .importSt, stmt .importSt,   -- 252-254
    stmt (.assignSt ("y_pred")),                      -- 256: batched model call
    stmt (.assignSt ("probs")),                       -- 257: softmax
    stmt (.assignSt ("cm")),                          -- 259-263: confusion_matrix
    stmt (.assignSt ("r")),                           -- 265: cp.arange
    stmtP .exprSt 5, stmtP .exprSt 5, stmtP .exprSt 5,  -- 266-268: plt calls
    stmtP .exprSt 5, stmtP .exprSt 5,                 -- 269-270: plt calls
    stmtP .forSt 5,                                   -- 271-272: loop of plt.text
    stmt (.assignSt ("i")),                           -- 290: random.randint
    stmt (.assignSt ("image")),                       -- 291: cp.movedim
    stmtP .exprSt 5, stmtP .exprSt 5, stmtP .exprSt 5,  -- 293-295: plt calls
    stmt .exprSt,                                     -- 312: print
    stmt (.assignSt ("image_tensor")),                -- 314
    stmt (.fieldAssign ("model") ("retain_values")),  -- 317
    stmt (.assignSt ("logits")),                      -- 318: model call
    stmt (.fieldAssign ("model") ("retain_values")),  -- 319
    stmt (.assignSt ("probs")),                       -- 321
    stmt (.assignSt ("pred")),                        -- 322
    stmt .exprSt,                                     -- 324: print
    stmtP .exprSt 5, stmtP .exprSt 5, stmtP .exprSt 5,  -- 326-328: plt calls
    stmtP .exprSt 5, stmtP .exprSt 5,                 -- 329-330: plt calls
    stmt (.defFun ("plot_channels")),                 -- 347-355
    stmt (.assignSt ("conv1")),                       -- 364
    stmt (.assignSt ("out")),                         -- 366
    stmt (.assignSt ("out_min")),                     -- 367
    stmt (.assignSt ("out_max")),                     -- 368
    stmt (.assignSt ("out")),                         -- 369
    stmtP .exprSt 5,                                  -- 370: plot_channels call
    stmt (.assignSt ("conv2")),                       -- 379
    stmt (.assignSt ("out2")),                        -- 381
    stmt (.assignSt ("out_min2")),                    -- 382
    stmt (.assignSt ("out_max2")),                    -- 383
    stmt (.assignSt ("out2")),                        -- 384
    stmtP .exprSt 5,                                  -- 385: plot_channels call
    stmt (.assignSt ("weights1")),                    -- 401
    stmt (.assignSt ("weights_min1")),                -- 402
    stmt (.assignSt ("weights_max1")),                -- 403
    stmt (.assignSt ("weights1")),                    -- 404
    stmtP .exprSt 5,                                  -- 405: plot_channels call
    stmt (.assignSt ("weights2")),                    -- 413
    stmt (.assignSt ("weights_min2")),                -- 414
    stmt (.assignSt ("weights_max2")),                -- 415
    stmt (.assignSt ("weights2")),                    -- 416
    stmtP .exprSt 5 ]                                 -- 417: plot_channels call


/-- The Iris notebook (src/unnamed/part_001), one entry per top-level
statement, in source order; source lines in the comments.  The statements
from line 217 on belong to the checkpoint save/load demonstration, outside
the five-step training pipeline, so they carry no step number. -/
def irisScript : List NStmt :=
  [ stmt .shellCmd,                                   -- 16: pip install
    stmt .importSt,                                   -- 25: compyute
    stmt .importSt, stmt .importSt,                   -- 44-45: pandas, preprocessing
    stmtP (.assignSt ("url")) 1,                      -- 48
    stmtP (.assignSt ("data")) 1,                     -- 49: pd.read_csv
    stmtP (.itemAssign ("data")) 2,                   -- 52: target encoding
    stmtP (.assignSt ("data_tensor")) 2,              -- 53: cp.tensor
    stmtP (.assignSt ("train, val, test")) 2,         -- 56: split_train_val_test
    stmtP (.assignSt ("X_train, y_train")) 2,         -- 59
    stmtP (.assignSt ("X_val, y_val")) 2,             -- 60
    stmtP (.assignSt ("X_test, y_test")) 2,           -- 61
    stmtP (.assignSt ("X_train")) 2,                  -- 64: normalize
    stmtP (.assignSt ("X_val")) 2,                    -- 65: normalize
    stmtP (.assignSt ("X_test")) 2,                   -- 66: normalize
    stmt .exprSt, stmt .exprSt, stmt .exprSt,         -- 68-70: prints
    stmt .exprSt, stmt .exprSt, stmt .exprSt,         -- 71-73: prints
    stmt .importSt,                                   -- 91: compyute.nn
    stmtP (.assignSt ("model")) 3,                    -- 93-97: nn.Sequential
    stmt (.assignSt ("summary")), stmt .exprSt,       -- 106-107
    stmt .importSt, stmt .importSt,                   -- 128-129
    stmtP (.assignSt ("history")) 4,                  -- 131: History
    stmtP (.assignSt ("prograss")) 4,                 -- 132: ProgressBar
    stmtP (.assignSt ("trainer")) 4,                  -- 134-140: Trainer
    stmtP .exprSt 4,                                  -- 149: trainer.train
    stmt .importSt,                                   -- 165: matplotlib
    stmt (.defFun ("plot_history")),                  -- 167-175
    stmtP .exprSt 5, stmtP .exprSt 5,                 -- 177-178: plot_history calls
    stmt (.assignSt ("loss, accuracy")),              -- 197: evaluate_model
    stmt .exprSt, stmt .exprSt,                       -- 198-199: prints
    stmt (.assignSt ("state")),                       -- 217-220
    stmt .exprSt,                                     -- 221: cp.save
    stmt .importSt,                                   -- 237: compyute.nn
    stmt (.assignSt ("loaded_model")),                -- 240-244: nn.Sequential
    stmt (.assignSt ("loaded_optimizer")),            -- 245: SGD
    stmt (.assignSt ("loaded_state")),                -- 248: cp.load
    stmt .exprSt, stmt .exprSt,                       -- 249-250: load_state_dict
    stmt (.assignSt ("sample")),                      -- 260: cp.tensor
    stmt .exprSt ]                                    -- 261: loaded_model call


/-! ## C2: what the repository defines and mutates. -/

/-- A statement defines or mutates repository-level structure: it defines a
function or class, or writes to an attribute or subscript of an existing
object. -/
def ownsDataOrState (s : NStmt) : Bool :=
  match s.kind with
  | .defFun _ => true
  | .classDef _ => true
  | .fieldAssign _ _ => true
  | .itemAssign _ => true
  | _ => false


/-- The claim of C2 as stated: no statement of either notebook defines a
function or class of its own or writes to a field (or subscript) of any
object after construction. -/
def claimOnlyLibraryGlue : Prop :=
  ∀ s ∈ mnistScript ++ irisScript, ownsDataOrState s = false


/-- Name defined when the statement is a function definition. -/
def defFunName (s : NStmt) : Option String :=
  match s.kind with
  | .defFun n => some n
  | _ => none


/-- Name defined when the statement is a class definition. -/
def classDefName (s : NStmt) : Option String :=
  match s.kind with
  | .classDef n => some n
  | _ => none


/-- Target (object, attribute) when the statement assigns an attribute. -/
def fieldAssignTarget (s : NStmt) : Option (String × String) :=
  match s.kind with
  | .fieldAssign o f => some (o, f)
  | _ => none


/-- Target object when the statement assigns a subscript. -/
def itemAssignTarget (s : NStmt) : Option String :=
  match s.kind with
  | .itemAssign o => some o
  | _ => none


/-! ## C4: the five pipeline steps run in order. -/

/-- The sequence of pipeline step numbers of a script, in execution order. -/
def phaseTrace (s : List NStmt) : List Nat := s.filterMap fun st => st.phase


/-- Boolean check that a list of step numbers never decreases. -/
def stepOrderedB : List Nat → Bool
  | a :: b :: rest => decide (a ≤ b) && stepOrderedB (b :: rest)
  | _ => true


/-! ## C5: failures propagate to the top level unchanged. -/

/-- Run the tail of a script whose next statement has index `i`, given an
oracle that says for each statement index whether the external call made by
that statement succeeds or raises (with which message).  A try/except block
would swallow the failure of its body and continue; any other statement
re-raises, aborting the rest of the script with the original error. -/
def runFrom (oracle : Nat → Except String Unit) : Nat → List NStmt → Except String Unit
  | _, [] => Except.ok ()
  | i, s :: rest =>
    if s.kind = StKind.tryExcept then runFrom oracle (i + 1) rest
    else
      match oracle i with
      | Except.error e => Except.error e
      | Except.ok _ => runFrom oracle (i + 1) rest


/-! ## C7: the reshape step (B, 784) -> (B, 1, 28, -1).

Lines 74-77 of the MNIST notebook reshape each flat 784-pixel row into a
single-channel 28 x 28 image, with the last dimension written as -1 and
inferred by the library as (number of elements) / (product of the known
dimensions). -/

/-- Split a list into consecutive chunks of `n` elements (the final chunk is
shorter when `n` does not divide the length); `fuel` bounds the recursion by
the length of the list. -/
def chunkAux (n : Nat) : Nat → List ℚ → List (List ℚ)
  | 0, _ => []
  | _, [] => []
  | fuel + 1, x :: xs => (x :: xs).take n :: chunkAux n fuel ((x :: xs).drop n)


/-- Split a list into consecutive chunks of `n` elements. -/
def chunk (n : Nat) (xs : List ℚ) : List (List ℚ) := chunkAux n xs.length xs


/-- NumPy-style inference of a -1 dimension: the number of elements divided
by the product of the known dimensions.  For one 784-element row reshaped to
(1, 28, -1) the known per-row dimensions are 1 and 28. -/
def inferLastDim (elems d1 d2 : Nat) : Nat := elems / (d1 * d2)


/-- The reshape of one row performed by lines 75-77: a flat row becomes one
channel of 28 rows, each of the inferred width. -/
def reshapeRow (row : List ℚ) : List (List (List ℚ)) :=
  [chunk (inferLastDim row.length 1 28) row]


/-- The reshape of the whole feature tensor, row by row, preserving row
order: (B, 784) -> (B, 1, 28, -1). -/
def reshapeMnist (x : List (List ℚ)) : List (List (List (List ℚ))) :=
  x.map reshapeRow


/-! ## C8: shape consistency of the declared MNIST layer sequence.

Lines 113-127 of part_000 declare the `nn.Sequential` model.  Shapes are
propagated layer by layer: a Conv2D with kernel k and no padding maps an
(c, h, w) map to (out_channels, h-k+1, w-k+1) and requires matching input
channels; MaxPooling2D with kernel k divides height and width by k; Flatten
collapses (c, h, w) into c*h*w features; Linear requires its in_channels to
equal the incoming feature count. -/

/-- A layer of the declared sequential model (shape-relevant data only). -/
inductive Layer where
  | conv2d (cin cout k : Nat)
  | relu
  | batchNorm2d (c : Nat)
  | batchNorm1d (c : Nat)
  | maxPool2d (k : Nat)
  | dropout
  | flattenL
  | linear (cin cout : Nat)
deriving DecidableEq


/-- The shape of the value flowing between layers (batch dimension
omitted): an image of (channels, height, width) or a flat feature vector. -/
inductive Shape where
  | img (c h w : Nat)
  | vec (n : Nat)
deriving DecidableEq


/-- Output shape of one layer on one input shape; none on a mismatch. -/
def layerOut (s : Shape) (l : Layer) : Option Shape :=
  match s, l with
  | .img c h w, .conv2d cin cout k =>
      if c = cin ∧ 0 < k ∧ k ≤ h ∧ k ≤ w
      then some (.img cout (h - k + 1) (w - k + 1)) else none
  | .img c h w, .batchNorm2d c' => if c = c' then some (.img c h w) else none
  | .img c h w, .maxPool2d k => if 0 < k then some (.img c (h / k) (w / k)) else none
  | .img c h w, .flattenL => some (.vec (c * h * w))
  | .vec n, .batchNorm1d c => if n = c then some (.vec n) else none
  | .vec n, .linear cin cout => if n = cin then some (.vec cout) else none
  | s, .relu => some s
  | s, .dropout => some s
  | _, _ => none


/-- Output shape of a layer sequence, propagating failure. -/
def modelOut (ls : List Layer) (s : Shape) : Option Shape :=
  ls.foldl (fun acc l => acc.bind fun sh => layerOut sh l) (some s)


/-- The MNIST model's layer sequence (part_000 lines 114-126). -/
def mnistLayers : List Layer :=
  [ .conv2d 1 32 5, .relu,
    .conv2d 32 32 5, .batchNorm2d 32, .relu,
    .maxPool2d 2, .dropout,
    .conv2d 32 64 3, .relu,
    .conv2d 64 64 3, .batchNorm2d 64, .relu,
    .maxPool2d 2, .dropout,
    .flattenL,
    .linear 576 256, .batchNorm1d 256, .relu,
    .linear 256 128, .batchNorm1d 128, .relu,
    .linear 128 84, .batchNorm1d 84, .relu, .dropout,
    .linear 84 10 ]


/-! ## C10: the random test index is always in bounds. -/

/-- Modelled from the spec: `random.randint` belongs to the Python standard
library, outside this repository.  Per its documentation it returns an
integer in [a, b] with both end points included; the random draw is
represented by reducing an arbitrary seed into that range. -/
def randint (a b seed : Nat) : Nat := a + seed % (b - a + 1)


/-! ## C3: what the adaptive learning-rate scheduler does.

`AdaptiveLrScheduler` lives in the external library.  The MNIST notebook
configures it (part_000 line 162) with target "val_loss", patience 2 and
lr_downscale_factor 0.2, and its own comment states what it does: "reduces
the learning rate when the target metric is not improving". -/

/-- State of the adaptive learning-rate scheduler: current learning rate,
best target-metric value seen so far, and the number of consecutive epochs
without improvement. -/
structure AdaptiveLr where
  lr : ℚ
  best : Option ℚ
  wait : Nat
deriving DecidableEq


/-- Modelled from the spec: `AdaptiveLrScheduler` is implemented in the
external library, not in this repository; this follows the notebook's own
comment — it "reduces the learning rate when the target metric is not
improving" (by `factor`, after `patience` consecutive epochs without
improvement of the target metric), and it carries no signal that would end
training. -/
def adaptiveLrStep (patience : Nat) (factor : ℚ) (st : AdaptiveLr) (metric : ℚ) :
    AdaptiveLr :=
  match st.best with
  | none => { st with best := some metric, wait := 0 }
  | some b =>
    if metric < b then { st with best := some metric, wait := 0 }
    else if patience ≤ st.wait + 1 then
      { lr := st.lr * factor, best := st.best, wait := 0 }
    else { st with wait := st.wait + 1 }


/-- Modelled from the spec: the trainer loop is implemented in the external
library.  It runs one epoch per entry of the per-epoch target-metric trace
(the configured number of epochs yields a trace of that length), invoking
the scheduler callback once per epoch with that epoch's target-metric value,
and returns how many epochs actually executed together with the final
scheduler state. -/
def trainLoop (patience : Nat) (factor : ℚ) :
    List ℚ → AdaptiveLr → Nat × AdaptiveLr
  | [], st => (0, st)
  | m :: rest, st =>
    let res := trainLoop patience factor rest (adaptiveLrStep patience factor st m)
    (res.1 + 1, res.2)


/-- A full training run with initial learning rate `lr0` over a per-epoch
metric trace. -/
def trainRun (lr0 : ℚ) (patience : Nat) (factor : ℚ) (metrics : List ℚ) :
    Nat × AdaptiveLr :=
  trainLoop patience factor metrics ⟨lr0, none, 0⟩


/-- The claim of C3 as stated, at the notebook's configuration (5 epochs,
patience 2, downscale factor 0.2): when the validation loss stops improving
(here: it never improves over the 5 epochs), the scheduler stops training
early, i.e. fewer than the configured 5 epochs execute. -/
def claimSchedulerStopsEarly : Prop :=
  (trainRun 1 2 (1/5) [1, 1, 1, 1, 1]).1 < 5


/-! ## C6: the save/load round trip of the Iris model.

The Iris notebook (part_001 lines 217-250) saves the pair of state
dictionaries with `cp.save`, re-creates the identical layer sequence
`Sequential(Linear(4,16), ReLU(), Linear(16,3))` and a fresh SGD optimizer,
and loads the checkpoint back with `cp.load` and `load_state_dict`. -/

/-- Parameters of one Linear layer: flattened weight and bias entries. -/
structure LinearP where
  w : List ℚ
  b : List ℚ
deriving DecidableEq


/-- The Iris model: `nn.Sequential(Linear(4,16), ReLU(), Linear(16,3))`
(part_001 lines 93-97 and 240-244).  `ReLU` has no parameters, so the model
state is the two Linear layers' parameters. -/
structure Seq2Model where
  lin1 : LinearP
  lin2 : LinearP
deriving DecidableEq


/-- A parameter dictionary: named parameter tensors. -/
def StateDict : Type := List (String × List ℚ)


/-- Modelled from the spec: `get_state_dict` is the external library's
serialization of a module's parameters as a parameter dictionary. -/
def Seq2Model.get_state_dict (m : Seq2Model) : StateDict :=
  [(("0.w"), m.lin1.w), (("0.b"), m.lin1.b),
   (("2.w"), m.lin2.w), (("2.b"), m.lin2.b)]


/-- Modelled from the spec: `load_state_dict` is the external library's
loading of a parameter dictionary into a module; every parameter of the
module must be present under its name with a matching number of entries,
otherwise loading fails. -/
def Seq2Model.load_state_dict (m : Seq2Model) (sd : StateDict) :
    Option Seq2Model :=
  match List.lookup ("0.w") sd, List.lookup ("0.b") sd,
      List.lookup ("2.w") sd, List.lookup ("2.b") sd with
  | some w1, some b1, some w2, some b2 =>
    if w1.length = m.lin1.w.length ∧ b1.length = m.lin1.b.length ∧
        w2.length = m.lin2.w.length ∧ b2.length = m.lin2.b.length
    then some ⟨⟨w1, b1⟩, ⟨w2, b2⟩⟩ else none
  | _, _, _, _ => none


/-- The value saved at line 217-221: the model's and the optimizer's state
dictionaries. -/
structure Checkpoint where
  model : StateDict
  optimizer : StateDict


/-- Modelled from the spec: `cp.save` serializes a value to a file path;
the file system is a list of (path, stored value) pairs, latest first. -/
def cpSave (fs : List (String × Checkpoint)) (path : String) (v : Checkpoint) :
    List (String × Checkpoint) :=
  (path, v) :: fs


/-- Modelled from the spec: `cp.load` reads back the value last stored at a
file path. -/
def cpLoad (fs : List (String × Checkpoint)) (path : String) : Option Checkpoint :=
  List.lookup path fs

/-! ## Theorems -/


/-- C1: for every input tensor x, the MNIST notebook's scale helper returns
(x - mean(x)) / std(x) elementwise, with mean(x) and std(x) scalars over all
elements cast to float32, and the argument tensor is left unchanged by the
call. -/
theorem scale_eq_spec_and_preserves_input (rt f32 : ℚ → ℚ) (x : List ℚ) :
    (scale rt f32 x).1 = scaleSpec rt f32 x ∧ (scale rt f32 x).2 = x := by
  refine ⟨?_, rfl⟩
  simp [scale, scaleSpec, tdivScalar, tsubScalar, List.map_map, Function.comp]


/-! ## C9: the division in `scale` is unguarded.

`std_px` is the only divisor; it is nonzero exactly when the tensor is not
constant (and nonempty). -/

theorem tvar_pos_of_two_ne (x : List ℚ) (a b : ℚ)
    (ha : a ∈ x) (hb : b ∈ x) (hab : a ≠ b) : 0 < tvar x := by
  have hlen : 0 < (x.length : ℚ) := by
    have : x ≠ [] := by rintro rfl; simp at ha
    exact_mod_cast List.length_pos.mpr this
  -- one of the two distinct elements differs from the mean
  obtain ⟨e, he, hne⟩ : ∃ e ∈ x, e ≠ tmean x := by
    by_cases h : a = tmean x
    · exact ⟨b, hb, by rw [← h]; exact fun hba => hab hba.symm⟩
    · exact ⟨a, ha, h⟩
  have hmem : (e - tmean x) ^ 2 ∈ x.map fun v => (v - tmean x) ^ 2 :=
    List.mem_map.mpr ⟨e, he, rfl⟩
  have hnonneg : ∀ y ∈ x.map fun v => (v - tmean x) ^ 2, (0:ℚ) ≤ y := by
    intro y hy
    obtain ⟨v, _, rfl⟩ := List.mem_map.mp hy
    positivity
  have hsum : (e - tmean x) ^ 2 ≤ (x.map fun v => (v - tmean x) ^ 2).sum :=
    List.single_le_sum hnonneg _ hmem
  have hpos : 0 < (x.map fun v => (v - tmean x) ^ 2).sum := by
    have : 0 < (e - tmean x) ^ 2 := by
      have := sub_ne_zero.mpr hne
      positivity
    linarith
  exact div_pos hpos hlen


theorem tvar_replicate (n : ℕ) (c : ℚ) :
    tvar (List.replicate (n + 1) c) = 0 := by
  have hmean : tmean (List.replicate (n + 1) c) = c := by
    simp [tmean, List.sum_replicate, nsmul_eq_mul]
    field_simp
  simp [tvar, hmean, List.map_replicate, List.sum_replicate]


/-- C9: the division in the scale helper is unguarded; for every input tensor
with two distinct elements the divisor std(x) is nonzero (so scale divides by
a nonzero scalar), and this precondition is necessary: for every constant
(nonempty) tensor the divisor std(x) is zero.  `rt` is any square root:
a nonnegative scalar maps to 0 exactly when it is 0. -/
theorem scale_division_guard (rt : ℚ → ℚ)
    (hrt : ∀ q : ℚ, 0 ≤ q → (rt q = 0 ↔ q = 0))
    (x : List ℚ) (a b : ℚ) (ha : a ∈ x) (hb : b ∈ x) (hab : a ≠ b) :
    tstd rt x ≠ 0 ∧ ∀ (n : ℕ) (c : ℚ), tstd rt (List.replicate (n + 1) c) = 0 := by
  have hpos := tvar_pos_of_two_ne x a b ha hb hab
  constructor
  · intro h0
    have := (hrt (tvar x) (le_of_lt hpos)).mp h0
    exact absurd this (ne_of_gt hpos)
  · intro n c
    have hz := tvar_replicate n c
    unfold tstd
    rw [hz]
    exact (hrt 0 le_rfl).mpr rfl


/-- Witness for C9 at the concrete tensor [0, 2] with a concrete square
root function. -/
theorem scale_division_guard_witness :
    (∀ q : ℚ, 0 ≤ q → ((if q = 0 then (0:ℚ) else 1) = 0 ↔ q = 0)) ∧
      ((0:ℚ) ∈ [(0:ℚ), 2] ∧ (2:ℚ) ∈ [(0:ℚ), 2] ∧ (0:ℚ) ≠ 2) ∧
      (tstd (fun q => if q = 0 then (0:ℚ) else 1) [(0:ℚ), 2] ≠ 0 ∧
        ∀ (n : ℕ) (c : ℚ),
          tstd (fun q => if q = 0 then (0:ℚ) else 1)
            (List.replicate (n + 1) c) = 0) :=
  ⟨fun q _ => by by_cases h : q = 0 <;> simp [h],
   ⟨by simp, by simp, by norm_num⟩,
   scale_division_guard (fun q => if q = 0 then (0:ℚ) else 1)
     (fun q _ => by by_cases h : q = 0 <;> simp [h])
     [(0:ℚ), 2] 0 2 (by simp) (by simp) (by norm_num)⟩


/-- Counterexample for C2: the claim as stated is false — the MNIST notebook
defines the function `scale` and assigns `model.retain_values` after the
model is constructed. -/
theorem claimOnlyLibraryGlue_false : ¬ claimOnlyLibraryGlue := by
  unfold claimOnlyLibraryGlue
  decide


/-- C2 amended: the repository defines no class or data structure of its own,
but its notebooks do define helper functions (scale, plot_history,
plot_channels in MNIST; plot_history in Iris), do write the retain_values
attribute of the library model three times after construction, and do assign
one DataFrame column in the Iris notebook; these are the only such
statements. -/
theorem repo_definitions_inventory :
    (mnistScript ++ irisScript).filterMap classDefName = [] ∧
    mnistScript.filterMap defFunName
      = [("scale"), ("plot_history"), ("plot_channels")] ∧
    irisScript.filterMap defFunName = [("plot_history")] ∧
    mnistScript.filterMap fieldAssignTarget
      = [(("model"), ("retain_values")), (("model"), ("retain_values")),
         (("model"), ("retain_values"))] ∧
    irisScript.filterMap fieldAssignTarget = [] ∧
    mnistScript.filterMap itemAssignTarget = [] ∧
    irisScript.filterMap itemAssignTarget = [("data")] := by decide


theorem stepOrderedB_iff_chain (l : List Nat) :
    stepOrderedB l = true ↔ List.Chain' (· ≤ ·) l := by
  induction l with
  | nil => simp [stepOrderedB]
  | cons a t ih =>
    cases t with
    | nil => simp [stepOrderedB]
    | cons b r =>
      rw [stepOrderedB, List.chain'_cons, Bool.and_eq_true, decide_eq_true_iff]
      exact and_congr Iff.rfl ih


/-- C4: in both notebooks every statement belonging to one of the five
pipeline steps (fetch, reshape/normalize, declare layers, train, plot) runs
only after all statements of earlier steps: the step trace is monotone, stays
within steps 1..5, and every step occurs. -/
theorem notebooks_execute_steps_in_order :
    (List.Chain' (· ≤ ·) (phaseTrace mnistScript) ∧
      List.Chain' (· ≤ ·) (phaseTrace irisScript)) ∧
    (∀ p ∈ phaseTrace mnistScript, 1 ≤ p ∧ p ≤ 5) ∧
    (∀ p ∈ phaseTrace irisScript, 1 ≤ p ∧ p ≤ 5) ∧
    (∀ p ∈ [1, 2, 3, 4, 5],
      p ∈ phaseTrace mnistScript ∧ p ∈ phaseTrace irisScript) := by
  refine ⟨⟨(stepOrderedB_iff_chain _).mp (by decide),
           (stepOrderedB_iff_chain _).mp (by decide)⟩, by decide, by decide, by decide⟩


theorem runFrom_error_of_first (script : List NStmt)
    (hnh : ∀ s ∈ script, s.kind ≠ StKind.tryExcept) :
    ∀ (oracle : Nat → Except String Unit) (i j : Nat) (e : String),
      j < script.length → oracle (i + j) = Except.error e →
      (∀ k < j, oracle (i + k) = Except.ok ()) →
      runFrom oracle i script = Except.error e := by
  induction script with
  | nil =>
    intro oracle i j e hj _ _
    exact absurd hj (Nat.not_lt_zero j)
  | cons s rest ih =>
    intro oracle i j e hj herr hok
    have hs : s.kind ≠ StKind.tryExcept := hnh s (List.mem_cons_self s rest)
    cases j with
    | zero =>
      have he : oracle i = Except.error e := by simpa using herr
      simp [runFrom, hs, he]
    | succ j' =>
      have h0 : oracle i = Except.ok () := by
        have := hok 0 (Nat.succ_pos j')
        simpa using this
      have hrest : runFrom oracle (i + 1) rest = Except.error e := by
        refine ih (fun t ht => hnh t (List.mem_cons_of_mem s ht)) oracle (i + 1) j' e ?_ ?_ ?_
        · exact Nat.lt_of_succ_lt_succ (by simpa using hj)
        · have : i + 1 + j' = i + (j' + 1) := by omega
          rw [this]; exact herr
        · intro k hk
          have : i + 1 + k = i + (k + 1) := by omega
          rw [this]
          exact hok (k + 1) (Nat.succ_lt_succ hk)
      simp [runFrom, hs, h0, hrest]


/-- C5: in either notebook, the first failure raised inside an external call
propagates to the top level unchanged: neither script contains any
try/except, and whenever the external call of statement j is the first to
raise error e, the whole script run aborts with exactly that error. -/
theorem notebook_errors_propagate_unchanged (script : List NStmt)
    (hs : script = mnistScript ∨ script = irisScript)
    (oracle : Nat → Except String Unit) (e : String) (j : Nat)
    (hj : j < script.length) (herr : oracle j = Except.error e)
    (hok : ∀ k < j, oracle k = Except.ok ()) :
    runFrom oracle 0 script = Except.error e ∧
      ∀ s ∈ script, s.kind ≠ StKind.tryExcept := by
  have hnh : ∀ s ∈ script, s.kind ≠ StKind.tryExcept := by
    rcases hs with h | h <;> subst h <;> decide
  refine ⟨?_, hnh⟩
  have := runFrom_error_of_first script hnh oracle 0 j e hj (by simpa using herr)
    (fun k hk => by simpa using hok k hk)
  simpa using this


/-- Witness for C5: a download failure in the very first statement of the
MNIST notebook surfaces verbatim as the result of the whole script. -/
theorem notebook_errors_propagate_unchanged_witness :
    (0 < mnistScript.length ∧
      (fun k => if k = 0 then Except.error ("download failure")
                else Except.ok ()) 0 = Except.error ("download failure")) ∧
    (runFrom
        (fun k => if k = 0 then Except.error ("download failure")
                  else Except.ok ()) 0 mnistScript
        = Except.error ("download failure") ∧
      ∀ s ∈ mnistScript, s.kind ≠ StKind.tryExcept) :=
  ⟨⟨by decide, by simp⟩,
   notebook_errors_propagate_unchanged mnistScript (Or.inl rfl)
     (fun k => if k = 0 then Except.error ("download failure") else Except.ok ())
     ("download failure") 0 (by decide) (by simp)
     (fun k hk => absurd hk (Nat.not_lt_zero k))⟩


theorem chunkAux_flatten (n : Nat) (hn : 0 < n) :
    ∀ (fuel : Nat) (xs : List ℚ), xs.length ≤ fuel →
      (chunkAux n fuel xs).flatten = xs := by
  intro fuel
  induction fuel with
  | zero =>
    intro xs hxs
    have : xs = [] := List.length_eq_zero.mp (Nat.le_zero.mp hxs)
    subst this
    rfl
  | succ f ih =>
    intro xs hxs
    cases xs with
    | nil => rfl
    | cons x t =>
      rw [chunkAux, List.flatten_cons, ih _ (by
        have : ((x :: t).drop n).length = (x :: t).length - n := List.length_drop n (x :: t)
        omega)]
      exact List.take_append_drop n (x :: t)


theorem chunkAux_count (n : Nat) (hn : 0 < n) :
    ∀ (fuel : Nat) (xs : List ℚ), xs.length ≤ fuel → n ∣ xs.length →
      (chunkAux n fuel xs).length = xs.length / n ∧
        ∀ c ∈ chunkAux n fuel xs, c.length = n := by
  intro fuel
  induction fuel with
  | zero =>
    intro xs hxs _
    have : xs = [] := List.length_eq_zero.mp (Nat.le_zero.mp hxs)
    subst this
    simp [chunkAux]
  | succ f ih =>
    intro xs hxs hdvd
    cases xs with
    | nil => simp [chunkAux]
    | cons x t =>
      have hlen : n ≤ (x :: t).length := by
        rcases hdvd with ⟨m, hm⟩
        have : m ≠ 0 := by
          rintro rfl
          simp at hm
        have : 1 ≤ m := Nat.one_le_iff_ne_zero.mpr this
        calc n = n * 1 := (Nat.mul_one n).symm
          _ ≤ n * m := Nat.mul_le_mul_left n this
          _ = (x :: t).length := hm.symm
      have hdrop : ((x :: t).drop n).length = (x :: t).length - n :=
        List.length_drop n (x :: t)
      have hdvd' : n ∣ ((x :: t).drop n).length := by
        rw [hdrop]
        exact Nat.dvd_sub' hdvd dvd_rfl
      obtain ⟨hcount, hall⟩ := ih ((x :: t).drop n) (by omega) hdvd'
      constructor
      · rw [chunkAux, List.length_cons, hcount, hdrop]
        rcases hdvd with ⟨m, hm⟩
        have hm1 : 1 ≤ m := by
          by_contra h
          have : m = 0 := by omega
          subst this
          simp at hm
        rw [hm, ← Nat.mul_sub_one, Nat.mul_div_cancel_left _ hn,
          Nat.mul_div_cancel_left _ hn]
        omega
      · intro c hc
        rw [chunkAux, List.mem_cons] at hc
        rcases hc with rfl | hc
        · exact List.length_take_of_le hlen
        · exact hall c hc


/-- C7: reshaping a (B, 784) feature tensor to (B, 1, 28, -1) keeps the
number of rows, keeps row order (row i of the result is computed from row i
of the input), resolves the inferred -1 dimension to 28, and reinterprets
each flat 784-vector as one channel of 28 rows of 28 pixels whose
concatenation, in order, is the original row. -/
theorem mnist_reshape_spec (x : List (List ℚ))
    (h : ∀ row ∈ x, row.length = 784) :
    (reshapeMnist x).length = x.length ∧
    (∀ i : Nat, (reshapeMnist x).get? i = (x.get? i).map reshapeRow) ∧
    ∀ row ∈ x,
      inferLastDim row.length 1 28 = 28 ∧
      reshapeRow row = [chunk 28 row] ∧
      (chunk 28 row).length = 28 ∧
      (∀ c ∈ chunk 28 row, c.length = 28) ∧
      (chunk 28 row).flatten = row := by
  refine ⟨List.length_map x reshapeRow, fun i => List.get?_map reshapeRow x i, ?_⟩
  intro row hrow
  have hlen : row.length = 784 := h row hrow
  have hinfer : inferLastDim row.length 1 28 = 28 := by
    rw [inferLastDim, hlen]
  have hdvd : 28 ∣ row.length := by rw [hlen]; decide
  obtain ⟨hcount, hall⟩ := chunkAux_count 28 (by norm_num) row.length row le_rfl hdvd
  refine ⟨hinfer, by rw [reshapeRow, hinfer], ?_, hall, ?_⟩
  · show (chunkAux 28 row.length row).length = 28
    rw [hcount, hlen]
  · exact chunkAux_flatten 28 (by norm_num) row.length row le_rfl


/-- Witness for C7 at the one-row tensor whose row is 784 zeros. -/
theorem mnist_reshape_spec_witness :
    (∀ row ∈ [List.replicate 784 (0:ℚ)], row.length = 784) ∧
    ((reshapeMnist [List.replicate 784 (0:ℚ)]).length
        = [List.replicate 784 (0:ℚ)].length ∧
      (∀ i : Nat,
        (reshapeMnist [List.replicate 784 (0:ℚ)]).get? i
          = ([List.replicate 784 (0:ℚ)].get? i).map reshapeRow) ∧
      ∀ row ∈ [List.replicate 784 (0:ℚ)],
        inferLastDim row.length 1 28 = 28 ∧
        reshapeRow row = [chunk 28 row] ∧
        (chunk 28 row).length = 28 ∧
        (∀ c ∈ chunk 28 row, c.length = 28) ∧
        (chunk 28 row).flatten = row) :=
  ⟨by
    intro row hrow
    rw [List.mem_singleton] at hrow
    subst hrow
    exact List.length_replicate _ _,
   mnist_reshape_spec [List.replicate 784 (0:ℚ)] (by
    intro row hrow
    rw [List.mem_singleton] at hrow
    subst hrow
    exact List.length_replicate _ _)⟩


/-- C8: on a (1, 28, 28) input, the convolutional stack of the MNIST model
(the 14 layers before Flatten) produces a (64, 3, 3) feature map, Flatten
yields 576 features, equal to the in_channels of the first Linear layer, and
the whole declared sequence is shape-consistent end to end, producing the
10-class output vector. -/
theorem mnist_model_shape_consistent :
    modelOut (mnistLayers.take 14) (.img 1 28 28) = some (.img 64 3 3) ∧
    layerOut (.img 64 3 3) .flattenL = some (.vec 576) ∧
    mnistLayers.get? 14 = some .flattenL ∧
    mnistLayers.get? 15 = some (.linear 576 256) ∧
    modelOut mnistLayers (.img 1 28 28) = some (.vec 10) := by
  decide


/-- C10: for every non-empty test set, the index drawn by
`random.randint(0, len(X_test) - 1)` (part_000 line 290) satisfies
0 <= i < len(X_test), so the indexing operations `X_test[i]` (line 314) and
`y_test[i]` (line 312) both succeed. -/
theorem randint_index_in_bounds {α β : Type} (X : List α) (y : List β)
    (hX : X ≠ []) (hlen : y.length = X.length) (seed : Nat) :
    randint 0 (X.length - 1) seed < X.length ∧
      (X.get? (randint 0 (X.length - 1) seed)).isSome ∧
      (y.get? (randint 0 (X.length - 1) seed)).isSome := by
  have hpos : 0 < X.length := List.length_pos.mpr hX
  have hi : randint 0 (X.length - 1) seed < X.length := by
    have h1 : X.length - 1 - 0 + 1 = X.length := by omega
    have h2 : randint 0 (X.length - 1) seed = seed % X.length := by
      rw [randint, h1, Nat.zero_add]
    rw [h2]
    exact Nat.mod_lt seed hpos
  refine ⟨hi, ?_, ?_⟩
  · rw [List.get?_eq_getElem?, List.getElem?_eq_getElem hi]
    rfl
  · have hi' : randint 0 (X.length - 1) seed < y.length := by rw [hlen]; exact hi
    rw [List.get?_eq_getElem?, List.getElem?_eq_getElem hi']
    rfl


/-- Witness for C10 on a three-image test set with seed 7. -/
theorem randint_index_in_bounds_witness :
    (([10, 11, 12] : List Nat) ≠ [] ∧
      ([(5:ℤ), 6, 7] : List ℤ).length = ([10, 11, 12] : List Nat).length) ∧
    (randint 0 (([10, 11, 12] : List Nat).length - 1) 7
        < ([10, 11, 12] : List Nat).length ∧
      (([10, 11, 12] : List Nat).get?
          (randint 0 (([10, 11, 12] : List Nat).length - 1) 7)).isSome ∧
      (([(5:ℤ), 6, 7] : List ℤ).get?
          (randint 0 (([10, 11, 12] : List Nat).length - 1) 7)).isSome) :=
  ⟨⟨by decide, by decide⟩,
   randint_index_in_bounds [10, 11, 12] [(5:ℤ), 6, 7] (by decide) (by decide) 7⟩


/-- Counterexample for C3: with the configured scheduler and a validation
loss that never improves, all 5 configured epochs still execute — the
scheduler does not stop training, it only downscales the learning rate
(here twice: 1 -> 1/5 -> 1/25). -/
theorem claimSchedulerStopsEarly_false :
    ¬ claimSchedulerStopsEarly ∧
      (trainRun 1 2 (1/5) [1, 1, 1, 1, 1]).2.lr = 1/25 := by
  have hrun : trainRun 1 2 (1/5) [1, 1, 1, 1, 1] = (5, ⟨1/25, some 1, 0⟩) := by
    norm_num [trainRun, trainLoop, adaptiveLrStep]
  constructor
  · unfold claimSchedulerStopsEarly
    rw [hrun]
    omega
  · rw [hrun]


/-- C3 amended: the adaptive scheduler configured in the MNIST notebook
provides learning-rate reduction, not early stopping: for every metric
trace the trainer executes exactly one epoch per trace entry (never fewer),
and on a never-improving validation loss the learning rate is downscaled by
the factor 0.2 after each 2 consecutive epochs without improvement (twice
in 5 epochs). -/
theorem scheduler_reduces_lr_never_stops (patience : Nat) (factor : ℚ) :
    (∀ (metrics : List ℚ) (st : AdaptiveLr),
        (trainLoop patience factor metrics st).1 = metrics.length) ∧
      (trainRun 1 2 (1/5) [1, 1, 1, 1, 1]).2.lr = 1/25 := by
  constructor
  · intro metrics
    induction metrics with
    | nil => intro st; rfl
    | cons m rest ih =>
      intro st
      show (trainLoop patience factor rest
          (adaptiveLrStep patience factor st m)).1 + 1 = rest.length + 1
      rw [ih]
  · norm_num [trainRun, trainLoop, adaptiveLrStep]


/-- C6: saving the pair of state dictionaries with `cp.save` and loading it
with `cp.load` into a freshly constructed model of the identical layer
sequence restores the saved parameters: the load of the checkpoint returns
exactly the saved pair, `load_state_dict` on the fresh model succeeds, and
the loaded model's parameter dictionary equals the saved one. -/
theorem save_load_round_trip (fs : List (String × Checkpoint))
    (trained fresh : Seq2Model) (osd : StateDict)
    (hshape : fresh.lin1.w.length = trained.lin1.w.length ∧
      fresh.lin1.b.length = trained.lin1.b.length ∧
      fresh.lin2.w.length = trained.lin2.w.length ∧
      fresh.lin2.b.length = trained.lin2.b.length) :
    cpLoad (cpSave fs ("iris_model.cp") ⟨trained.get_state_dict, osd⟩)
        ("iris_model.cp") = some ⟨trained.get_state_dict, osd⟩ ∧
      ∃ loaded : Seq2Model,
        fresh.load_state_dict trained.get_state_dict = some loaded ∧
          loaded.get_state_dict = trained.get_state_dict := by
  obtain ⟨h1, h2, h3, h4⟩ := hshape
  constructor
  · simp [cpLoad, cpSave, List.lookup]
  · refine ⟨⟨trained.lin1, trained.lin2⟩, ?_, rfl⟩
    simp [Seq2Model.load_state_dict, Seq2Model.get_state_dict, List.lookup,
      h1.symm, h2.symm, h3.symm, h4.symm]


/-- Witness for C6 with concrete trained parameters and a zero-initialized
fresh model of the same layer sequence. -/
theorem save_load_round_trip_witness :
    ((⟨⟨List.replicate 64 0, List.replicate 16 0⟩,
        ⟨List.replicate 48 0, List.replicate 3 0⟩⟩ : Seq2Model).lin1.w.length
        = ((⟨⟨List.replicate 64 (1/2), List.replicate 16 (1/3)⟩,
            ⟨List.replicate 48 (1/5), List.replicate 3 (1/7)⟩⟩ : Seq2Model)).lin1.w.length ∧
      (⟨⟨List.replicate 64 0, List.replicate 16 0⟩,
        ⟨List.replicate 48 0, List.replicate 3 0⟩⟩ : Seq2Model).lin1.b.length
        = ((⟨⟨List.replicate 64 (1/2), List.replicate 16 (1/3)⟩,
            ⟨List.replicate 48 (1/5), List.replicate 3 (1/7)⟩⟩ : Seq2Model)).lin1.b.length ∧
      (⟨⟨List.replicate 64 0, List.replicate 16 0⟩,
        ⟨List.replicate 48 0, List.replicate 3 0⟩⟩ : Seq2Model).lin2.w.length
        = ((⟨⟨List.replicate 64 (1/2), List.replicate 16 (1/3)⟩,
            ⟨List.replicate 48 (1/5), List.replicate 3 (1/7)⟩⟩ : Seq2Model)).lin2.w.length ∧
      (⟨⟨List.replicate 64 0, List.replicate 16 0⟩,
        ⟨List.replicate 48 0, List.replicate 3 0⟩⟩ : Seq2Model).lin2.b.length
        = ((⟨⟨List.replicate 64 (1/2), List.replicate 16 (1/3)⟩,
            ⟨List.replicate 48 (1/5), List.replicate 3 (1/7)⟩⟩ : Seq2Model)).lin2.b.length) ∧
    (cpLoad (cpSave []
          ("iris_model.cp")
          ⟨(⟨⟨List.replicate 64 (1/2), List.replicate 16 (1/3)⟩,
              ⟨List.replicate 48 (1/5), List.replicate 3 (1/7)⟩⟩ : Seq2Model).get_state_dict,
            []⟩)
        ("iris_model.cp")
        = some ⟨(⟨⟨List.replicate 64 (1/2), List.replicate 16 (1/3)⟩,
            ⟨List.replicate 48 (1/5), List.replicate 3 (1/7)⟩⟩ : Seq2Model).get_state_dict, []⟩ ∧
      ∃ loaded : Seq2Model,
        (⟨⟨List.replicate 64 0, List.replicate 16 0⟩,
          ⟨List.replicate 48 0, List.replicate 3 0⟩⟩ : Seq2Model).load_state_dict
            (⟨⟨List.replicate 64 (1/2), List.replicate 16 (1/3)⟩,
              ⟨List.replicate 48 (1/5), List.replicate 3 (1/7)⟩⟩ : Seq2Model).get_state_dict
          = some loaded ∧
          loaded.get_state_dict
            = (⟨⟨List.replicate 64 (1/2), List.replicate 16 (1/3)⟩,
                ⟨List.replicate 48 (1/5), List.replicate 3 (1/7)⟩⟩ : Seq2Model).get_state_dict) :=
  ⟨⟨by simp, by simp, by simp, by simp⟩,
   save_load_round_trip []
     ⟨⟨List.replicate 64 (1/2), List.replicate 16 (1/3)⟩,
       ⟨List.replicate 48 (1/5), List.replicate 3 (1/7)⟩⟩
     ⟨⟨List.replicate 64 0, List.replicate 16 0⟩,
       ⟨List.replicate 48 0, List.replicate 3 0⟩⟩
     [] ⟨by simp, by simp, by simp, by simp⟩⟩

end Cnn

